import Mathlib

/-!
Verification development for the SQL-backed computed-metrics store and the
DataContext configuration layer of the `great_expectations` repository.

The Python source is shallowly embedded: datetimes are modelled as `Nat`
timestamps, SQL rows and business records as Lean structures, the mutable
scoped-session machinery as explicit state passing, and fallible operations
as `Except`-valued functions.
-/

namespace GE

/-- Errors raised by the embedded code, mirroring the exception classes of
`great_expectations.exceptions` plus plain Python `ValueError` and a catch-all
constructor for exception classes that the embedded code never inspects. -/
inductive GeError where
  | invalidConfigError (msg : String)
  | dataContextError (msg : String)
  | datasourceKeyPairAuthBadPassphraseError (datasourceName : String) (msg : String)
  | valueError (msg : String)
  | otherError (code : Nat)
deriving DecidableEq, Repr

/-- `ComputedMetric` business record
(`great_expectations.computed_metrics.computed_metric.ComputedMetric`).
Modelled from the spec: the class body is outside the provided source excerpt;
the field set follows the spec's data model (identity tuple, provenance
fields, lifecycle timestamps and flags, payload) together with the `id`
keyword that the in-excerpt translation code passes to its constructor.
Datetimes are `Nat` timestamps; the opaque `value` payload and the `details`
mapping are modelled as an optional string and an optional association list. -/
structure ComputedMetric where
  batch_id : Option String
  metric_name : Option String
  metric_domain_kwargs_id : Option String
  metric_value_kwargs_id : Option String
  datasource_name : Option String
  data_asset_name : Option String
  batch_name : Option String
  created_at : Nat
  updated_at : Nat
  deleted_at : Option Nat
  deleted : Bool
  archived_at : Option Nat
  archived : Bool
  data_context_uuid : Option String
  id : Option Nat
  value : Option String
  details : Option (List (String × String))
deriving DecidableEq, Repr

/-- `ComputedMetric` SQLAlchemy model row
(`great_expectations.computed_metrics.db.models.sqlalchemy_computed_metric_model`).
Modelled from the spec: the declarative model class is outside the provided
source excerpt; its columns are exactly the attributes assigned or read by the
in-excerpt translation functions (the business-record fields plus the
database-assigned `id` column). -/
structure SqlAlchemyComputedMetricModel where
  batch_id : Option String
  metric_name : Option String
  metric_domain_kwargs_id : Option String
  metric_value_kwargs_id : Option String
  datasource_name : Option String
  data_asset_name : Option String
  batch_name : Option String
  created_at : Nat
  updated_at : Nat
  deleted_at : Option Nat
  deleted : Bool
  archived_at : Option Nat
  archived : Bool
  data_context_uuid : Option String
  id : Option Nat
  value : Option String
  details : Option (List (String × String))
deriving DecidableEq, Repr

/-- A freshly constructed `SqlAlchemyComputedMetricModel()` before any
attribute assignment: every nullable column is `NULL` (the `id` primary key
is assigned by the database, not by the translation code). -/
def SqlAlchemyComputedMetricModel.fresh : SqlAlchemyComputedMetricModel :=
  { batch_id := none
    metric_name := none
    metric_domain_kwargs_id := none
    metric_value_kwargs_id := none
    datasource_name := none
    data_asset_name := none
    batch_name := none
    created_at := 0
    updated_at := 0
    deleted_at := none
    deleted := false
    archived_at := none
    archived := false
    data_context_uuid := none
    id := none
    value := none
    details := none }

namespace SqlAlchemyComputedMetricsStore

/-- `SqlAlchemyComputedMetricsStore._translate_computed_metric_business_object_to_sqlalchemy_model`:
builds a fresh model object and assigns every business field onto it.  The
`id` assignment is commented out in the source, so the row keeps the fresh
object's (database-assigned) `id`. -/
def translateComputedMetricBusinessObjectToSqlalchemyModel
    (computed_metric_business_object : ComputedMetric) :
    SqlAlchemyComputedMetricModel :=
  { SqlAlchemyComputedMetricModel.fresh with
    batch_id := computed_metric_business_object.batch_id
    metric_name := computed_metric_business_object.metric_name
    metric_domain_kwargs_id := computed_metric_business_object.metric_domain_kwargs_id
    metric_value_kwargs_id := computed_metric_business_object.metric_value_kwargs_id
    datasource_name := computed_metric_business_object.datasource_name
    data_asset_name := computed_metric_business_object.data_asset_name
    batch_name := computed_metric_business_object.batch_name
    created_at := computed_metric_business_object.created_at
    updated_at := computed_metric_business_object.updated_at
    deleted_at := computed_metric_business_object.deleted_at
    deleted := computed_metric_business_object.deleted
    archived_at := computed_metric_business_object.archived_at
    archived := computed_metric_business_object.archived
    data_context_uuid := computed_metric_business_object.data_context_uuid
    value := computed_metric_business_object.value
    details := computed_metric_business_object.details }

/-- `SqlAlchemyComputedMetricsStore._translate_sqlalchemy_computed_metric_model_to_business_object`:
constructs a business record from every row column, `id` included. -/
def translateSqlalchemyComputedMetricModelToBusinessObject
    (sa_computed_metric_model_obj : SqlAlchemyComputedMetricModel) :
    ComputedMetric :=
  { batch_id := sa_computed_metric_model_obj.batch_id
    metric_name := sa_computed_metric_model_obj.metric_name
    metric_domain_kwargs_id := sa_computed_metric_model_obj.metric_domain_kwargs_id
    metric_value_kwargs_id := sa_computed_metric_model_obj.metric_value_kwargs_id
    datasource_name := sa_computed_metric_model_obj.datasource_name
    data_asset_name := sa_computed_metric_model_obj.data_asset_name
    batch_name := sa_computed_metric_model_obj.batch_name
    created_at := sa_computed_metric_model_obj.created_at
    updated_at := sa_computed_metric_model_obj.updated_at
    deleted_at := sa_computed_metric_model_obj.deleted_at
    deleted := sa_computed_metric_model_obj.deleted
    archived_at := sa_computed_metric_model_obj.archived_at
    archived := sa_computed_metric_model_obj.archived
    data_context_uuid := sa_computed_metric_model_obj.data_context_uuid
    id := sa_computed_metric_model_obj.id
    value := sa_computed_metric_model_obj.value
    details := sa_computed_metric_model_obj.details }

end SqlAlchemyComputedMetricsStore

/-- State of a SQLAlchemy scoped session bound to the store's engine.
`committed` is the durable table contents, `pending` the rows staged by
`session.add` but not yet committed; `closed` records that `session.close()`
ran and `scopeReleased` that `session.remove()` released the scoped registry. -/
structure DbSession where
  committed : List SqlAlchemyComputedMetricModel
  pending : List SqlAlchemyComputedMetricModel
  closed : Bool
  scopeReleased : Bool
deriving DecidableEq, Repr

/-- `session.add(obj)`: stages a row in the session's pending set. -/
def DbSession.add (s : DbSession) (row : SqlAlchemyComputedMetricModel) : DbSession :=
  { s with pending := s.pending ++ [row] }

/-- `session.commit()`: makes all pending rows durable. -/
def DbSession.commit (s : DbSession) : DbSession :=
  { s with committed := s.committed ++ s.pending, pending := [] }

/-- `session.rollback()`: discards all pending rows. -/
def DbSession.rollback (s : DbSession) : DbSession :=
  { s with pending := [] }

/-- `session.close()`. -/
def DbSession.close (s : DbSession) : DbSession :=
  { s with closed := true }

/-- `session.remove()`: releases the scoped-session scope. -/
def DbSession.remove (s : DbSession) : DbSession :=
  { s with scopeReleased := true }

namespace SqlAlchemyComputedMetricsStore

/-- `SqlAlchemyComputedMetricsStore._get_managed_scoped_db_session`: the
`@contextmanager` that yields the scoped session, commits after the body
returns normally, rolls back and re-raises the original exception when the
body raises, and in both cases closes the session and releases the scope in
the `finally` block.  The body is modelled as a state transformer that
returns the mutated session together with either a result or the exception
it raised. -/
def getManagedScopedDbSession {α : Type}
    (body : DbSession → DbSession × Except GeError α) (session : DbSession) :
    DbSession × Except GeError α :=
  match body session with
  | (s, Except.ok a) => (((s.commit).close).remove, Except.ok a)
  | (s, Except.error e) => (((s.rollback).close).remove, Except.error e)

/-- The branch taken by the `if`/`elif` chain of
`SqlAlchemyComputedMetricsStore._get_datetime_filtered_query_results`, with
`none` standing for the defensive final `else` branch (which would return an
empty result list). -/
def datetimeFilterBranchResults
    (query_object : List SqlAlchemyComputedMetricModel)
    (datetime_begin : Option Nat) (datetime_end : Option Nat) :
    Option (List SqlAlchemyComputedMetricModel) :=
  if datetime_begin.isNone && datetime_end.isNone then
    some query_object
  else if datetime_begin.isSome && datetime_end.isNone then
    some (query_object.filter fun row => datetime_begin.getD 0 ≤ row.updated_at)
  else if datetime_begin.isNone && datetime_end.isSome then
    some (query_object.filter fun row => row.updated_at ≤ datetime_end.getD 0)
  else if datetime_begin.isSome && datetime_end.isSome then
    some ((query_object.filter fun row => datetime_begin.getD 0 ≤ row.updated_at).filter
      fun row => row.updated_at ≤ datetime_end.getD 0)
  else
    none

/-- Descending order on rows by `updated_at`, the key of
`sorted(results, key=lambda element: element.updated_at, reverse=True)`. -/
def updatedAtDescOrder (a b : SqlAlchemyComputedMetricModel) : Prop :=
  b.updated_at ≤ a.updated_at

instance : DecidableRel updatedAtDescOrder := fun a b =>
  inferInstanceAs (Decidable (b.updated_at ≤ a.updated_at))

instance : IsTotal SqlAlchemyComputedMetricModel updatedAtDescOrder :=
  ⟨fun a b => (Nat.le_total a.updated_at b.updated_at).symm⟩

instance : IsTrans SqlAlchemyComputedMetricModel updatedAtDescOrder :=
  ⟨fun _ _ _ hab hbc => Nat.le_trans hbc hab⟩

/-- `SqlAlchemyComputedMetricsStore._get_datetime_filtered_query_results`:
applies the four-way datetime dispatch to the query results (`[]` on the
defensive else branch), sorts by `updated_at` descending, and translates
each row to a business record. -/
def getDatetimeFilteredQueryResults
    (query_object : List SqlAlchemyComputedMetricModel)
    (datetime_begin : Option Nat) (datetime_end : Option Nat) :
    List ComputedMetric :=
  let results := (datetimeFilterBranchResults query_object datetime_begin datetime_end).getD []
  let results := results.insertionSort updatedAtDescOrder
  results.map fun sa_computed_metric_model_obj =>
    translateSqlalchemyComputedMetricModelToBusinessObject sa_computed_metric_model_obj

/-- `ComputedMetricIdentifier(metric_key=(...)).to_tuple()` as used by
`SqlAlchemyComputedMetricsStore.get`.  Modelled from the spec: the
`ComputedMetricIdentifier` class is outside the provided source excerpt; the
spec describes `get` as an exact-match conjunction over the identity fields,
so the identifier round-trips the four key parts unchanged. -/
def computedMetricIdentifierToTuple
    (metric_key : Option String × Option String × Option String × Option String) :
    Option String × Option String × Option String × Option String :=
  metric_key

/-- The filter predicate of `SqlAlchemyComputedMetricsStore.get`: a
conjunction over all four identity columns, each compared for equality with
the corresponding (possibly absent) key part; SQLAlchemy renders `== None`
as `IS NULL`, so an absent part matches exactly the rows whose column is
`NULL`. -/
def keyConditions (row : SqlAlchemyComputedMetricModel)
    (batch_id metric_name metric_domain_kwargs_id metric_value_kwargs_id : Option String) :
    Bool :=
  row.batch_id == batch_id && row.metric_name == metric_name &&
    row.metric_domain_kwargs_id == metric_domain_kwargs_id &&
    row.metric_value_kwargs_id == metric_value_kwargs_id

/-- `SqlAlchemyComputedMetricsStore.get`, run against the scoped session:
builds the identity key, filters the table by the conjunction of the four
identity-column equalities, applies the datetime-filtered query pipeline
inside the managed session, and returns `None` when there are no results,
else the first (most recently updated) one. -/
def get (session : DbSession)
    (batch_id metric_name metric_domain_kwargs_id metric_value_kwargs_id : Option String)
    (datetime_begin : Option Nat) (datetime_end : Option Nat) :
    DbSession × Except GeError (Option ComputedMetric) :=
  let key := computedMetricIdentifierToTuple
    (batch_id, metric_name, metric_domain_kwargs_id, metric_value_kwargs_id)
  getManagedScopedDbSession
    (fun s =>
      let results := getDatetimeFilteredQueryResults
        (s.committed.filter fun row => keyConditions row key.1 key.2.1 key.2.2.1 key.2.2.2)
        datetime_begin datetime_end
      (s, Except.ok results.head?))
    session

/-- `SqlAlchemyComputedMetricsStore.list`: the datetime-filtered query over
the whole table, inside the managed session. -/
def list (session : DbSession)
    (datetime_begin : Option Nat) (datetime_end : Option Nat) :
    DbSession × Except GeError (List ComputedMetric) :=
  getManagedScopedDbSession
    (fun s =>
      (s, Except.ok (getDatetimeFilteredQueryResults s.committed datetime_begin datetime_end)))
    session

/-- The `ComputedMetricBusinessObject` built by
`SqlAlchemyComputedMetricsStore.create` from its call arguments, with
`created_at`/`updated_at` defaulting to `now` (`datetime.datetime.now()`)
when the caller omits them, and the `id` keyword not passed (the uuid line
is commented out in the source). -/
def createdBusinessObject (now : Nat)
    (batch_id metric_name metric_domain_kwargs_id metric_value_kwargs_id : String)
    (datasource_name data_asset_name batch_name : Option String)
    (created_at updated_at deleted_at : Option Nat) (deleted : Bool)
    (archived_at : Option Nat) (archived : Bool)
    (data_context_uuid : Option String)
    (value : Option String) (details : Option (List (String × String))) :
    ComputedMetric :=
  { batch_id := some batch_id
    metric_name := some metric_name
    metric_domain_kwargs_id := some metric_domain_kwargs_id
    metric_value_kwargs_id := some metric_value_kwargs_id
    datasource_name := datasource_name
    data_asset_name := data_asset_name
    batch_name := batch_name
    created_at := created_at.getD now
    updated_at := updated_at.getD now
    deleted_at := deleted_at
    deleted := deleted
    archived_at := archived_at
    archived := archived
    data_context_uuid := data_context_uuid
    id := none
    value := value
    details := details }

/-- `SqlAlchemyComputedMetricsStore.create`: builds the business record
(defaulting `created_at`/`updated_at` to `now` when absent), translates it to
a model row, and adds it to the managed session.  `failure` injects an
exception raised during the write (e.g. a constraint violation surfacing at
flush), `none` meaning the write succeeds. -/
def create (session : DbSession) (now : Nat)
    (batch_id metric_name metric_domain_kwargs_id metric_value_kwargs_id : String)
    (datasource_name data_asset_name batch_name : Option String)
    (created_at updated_at deleted_at : Option Nat) (deleted : Bool)
    (archived_at : Option Nat) (archived : Bool)
    (data_context_uuid : Option String)
    (value : Option String) (details : Option (List (String × String)))
    (failure : Option GeError) :
    DbSession × Except GeError Unit :=
  let computed_metric_business_object : ComputedMetric :=
    createdBusinessObject now batch_id metric_name metric_domain_kwargs_id
      metric_value_kwargs_id datasource_name data_asset_name batch_name
      created_at updated_at deleted_at deleted archived_at archived
      data_context_uuid value details
  let sa_computed_metric_model_obj :=
    translateComputedMetricBusinessObjectToSqlalchemyModel computed_metric_business_object
  getManagedScopedDbSession
    (fun s =>
      match failure with
      | none => (s.add sa_computed_metric_model_obj, Except.ok ())
      | some e => (s.add sa_computed_metric_model_obj, Except.error e))
    session

end SqlAlchemyComputedMetricsStore

/-- Database credentials dictionary as consumed by
`SqlAlchemyComputedMetricsStore._build_engine`: a `drivername`, optional
`schema`, `connect_args`, key-pair-authentication entries, and the remaining
url components. -/
structure Credentials where
  drivername : String
  schema : Option String
  connect_args : Option (List (String × String))
  private_key_path : Option String
  private_key_passphrase : Option String
  rest : List (String × String)
deriving DecidableEq, Repr

/-- Outcome of `serialization.load_pem_private_key`: success yields the
decrypted key (modelled opaquely as a `Nat`), failure is either a Python
`ValueError` carrying its message or an exception of some other class. -/
inductive PemLoadOutcome where
  | ok (key : Nat)
  | valueError (msg : String)
  | otherError (code : Nat)
deriving DecidableEq, Repr

/-- Whether `needle` occurs as a contiguous run inside `haystack`
(`needle in haystack` on Python strings, over explicit character lists). -/
def charsStartWith : List Char → List Char → Bool
  | [], _ => true
  | _ :: _, [] => false
  | a :: as, b :: bs => a == b && charsStartWith as bs

/-- Python's `needle in haystack` substring test over character lists. -/
def charsContain (needle : List Char) : List Char → Bool
  | [] => needle.isEmpty
  | c :: rest => charsStartWith needle (c :: rest) || charsContain needle rest

/-- `str.lower()` over the model's character lists. -/
def lowerChars (s : String) : List Char :=
  s.toList.map Char.toLower

/-- A sqlalchemy engine as selected by the store constructor: either the
caller-supplied engine object, or one created from credentials (possibly via
the key-pair-authentication url), from a connection string, or from a url. -/
inductive DbEngine where
  | supplied (engine : Nat)
  | fromCredentialsUrl (drivername : String) (credentials : Credentials)
  | fromKeyPairAuthUrl (drivername : String) (credentials : Credentials) (private_key : Nat)
  | fromConnectionString (connection_string : String)
  | fromUrl (url : String)
deriving DecidableEq, Repr

namespace SqlAlchemyComputedMetricsStore

/-- `SqlAlchemyComputedMetricsStore._get_sqlalchemy_key_pair_auth_url`:
decrypts the PEM private key (the low-level `load_pem_private_key` outcome is
passed in explicitly); a `ValueError` whose message contains
`"incorrect password"` after lowercasing becomes
`DatasourceKeyPairAuthBadPassphraseError`, any other failure is re-raised
unchanged; on success the DER-serialized key is returned as the
`connect_args` private key together with the url built from the remaining
credentials. -/
def getSqlalchemyKeyPairAuthUrl (drivername : String) (credentials : Credentials)
    (pem_load : PemLoadOutcome) :
    Except GeError (DbEngine × Option Nat) :=
  match pem_load with
  | PemLoadOutcome.valueError msg =>
    if charsContain (lowerChars "incorrect password") (lowerChars msg) then
      Except.error (GeError.datasourceKeyPairAuthBadPassphraseError
        "SqlAlchemyDatasource" "Decryption of key failed, was the passphrase incorrect?")
    else
      Except.error (GeError.valueError msg)
  | PemLoadOutcome.otherError code => Except.error (GeError.otherError code)
  | PemLoadOutcome.ok key =>
    Except.ok (DbEngine.fromKeyPairAuthUrl drivername credentials key, some key)

/-- `SqlAlchemyComputedMetricsStore._build_engine`: key-pair authentication
when `private_key_path` is present in the credentials, else an engine from
the url assembled out of the credentials. -/
def buildEngine (credentials : Credentials) (pem_load : PemLoadOutcome) :
    Except GeError DbEngine :=
  if credentials.private_key_path.isSome then
    (getSqlalchemyKeyPairAuthUrl credentials.drivername credentials pem_load).map
      fun options => options.1
  else
    Except.ok (DbEngine.fromCredentialsUrl credentials.drivername credentials)

/-- The warning logged by the constructor when both `credentials` and
`engine` are supplied. -/
def credentialsIgnoredWarning : String :=
  "Both credentials and engine were provided during initialization of SqlAlchemyExecutionEngine. Ignoring credentials."

/-- `SqlAlchemyComputedMetricsStore.__init__`, restricted to connection-mode
selection: prefers a supplied `engine` (logging a warning and ignoring
`credentials` when both are given), then `credentials` (through
`_build_engine`), then `connection_string`, then `url`, and raises
`InvalidConfigError` when none is supplied.  Returns the selected engine
together with the warnings logged. -/
def storeInit (credentials : Option Credentials) (url : Option String)
    (connection_string : Option String) (engine : Option Nat)
    (pem_load : PemLoadOutcome) :
    Except GeError (DbEngine × List String) :=
  match engine with
  | some e =>
    Except.ok (DbEngine.supplied e,
      if credentials.isSome then [credentialsIgnoredWarning] else [])
  | none =>
    match credentials with
    | some c => (buildEngine c pem_load).map fun eng => (eng, [])
    | none =>
      match connection_string with
      | some cs => Except.ok (DbEngine.fromConnectionString cs, [])
      | none =>
        match url with
        | some u => Except.ok (DbEngine.fromUrl u, [])
        | none =>
          Except.error (GeError.invalidConfigError
            "Credentials, url, connection_string, or an engine are required for a DatabaseStoreBackend.")

end SqlAlchemyComputedMetricsStore

/-- A scalar in a component configuration: either a plain literal or an
unresolved `$\x7bVAR\x7d` variable token. -/
inductive ConfigLeaf where
  | lit (s : String)
  | var (name : String)
deriving DecidableEq, Repr

/-- A component configuration fragment: a mapping from option names to
scalars. -/
abbrev Config := List (String × ConfigLeaf)

/-- Python `dict.__setitem__` on an association list: replaces the value at
an existing key in place, else appends the new entry. -/
def setEntry : List (String × α) → String → α → List (String × α)
  | [], k, v => [(k, v)]
  | (k', v') :: rest, k, v =>
    if k' == k then (k, v) :: rest else (k', v') :: setEntry rest k v

/-- Substitution of one configuration scalar against the loaded variables.
Modelled from the spec: `substitute_all_config_variables` lives in
`great_expectations.data_context.util`, outside the provided source excerpt;
per the spec a `$\x7bVAR\x7d` token is replaced by `variables[VAR]` when
present and left literal otherwise, and non-variable scalars pass through
unchanged. -/
def substituteConfigVariable (vars : List (String × String)) :
    ConfigLeaf → ConfigLeaf
  | ConfigLeaf.lit s => ConfigLeaf.lit s
  | ConfigLeaf.var n =>
    match vars.lookup n with
    | some v => ConfigLeaf.lit v
    | none => ConfigLeaf.var n

/-- Substitution over a whole configuration fragment (modelled from the spec,
see `substituteConfigVariable`): a structurally new tree, the input is not
mutated. -/
def substituteAllConfigVariables (config : Config)
    (vars : List (String × String)) : Config :=
  config.map fun p => (p.1, substituteConfigVariable vars p.2)

/-- The `datasources`/`stores` sections of the project configuration
(`DataContextConfig`), the parts of the root aggregate that the embedded
mutation methods touch. -/
structure ProjectConfig where
  datasources : List (String × Config)
  stores : List (String × Config)
deriving DecidableEq, Repr

/-- A datasource instance as produced by
`ConfigOnlyDataContext._build_datasource_from_config`: the class is
instantiated from the (substituted) config with the datasource's name added
to it. -/
structure Datasource where
  name : String
  config : Config
deriving DecidableEq, Repr

/-- `ConfigOnlyDataContext._build_datasource_from_config` (the `type`-based
deprecated path is not exercised by the embedded configs). -/
def buildDatasourceFromConfig (name : String) (config : Config) : Datasource :=
  { name := name, config := config }

/-- A store instance as produced by `instantiate_class_from_config` from the
substituted config entry. -/
structure StoreInstance where
  config : Config
deriving DecidableEq, Repr

/-- State of a `ConfigOnlyDataContext`: the raw project config, the loaded
config variables, the lazily populated datasource and store registries, and
the durable (file) copy of the project config, `none` until a save.  The
in-memory base class never writes `savedProjectConfig`; the file-backed
`DataContext` subclass does. -/
structure ConfigOnlyDataContext where
  projectConfig : ProjectConfig
  configVariables : List (String × String)
  datasources : List (String × Datasource)
  stores : List (String × StoreInstance)
  savedProjectConfig : Option ProjectConfig
deriving DecidableEq, Repr

namespace ConfigOnlyDataContext

/-- `ConfigOnlyDataContext._project_config_with_variables_substituted`: the
derived, recomputed-on-access projection of the raw project config with
variables substituted. -/
def projectConfigWithVariablesSubstituted (ctx : ConfigOnlyDataContext) :
    ProjectConfig :=
  { datasources := ctx.projectConfig.datasources.map
      fun p => (p.1, substituteAllConfigVariables p.2 ctx.configVariables)
    stores := ctx.projectConfig.stores.map
      fun p => (p.1, substituteAllConfigVariables p.2 ctx.configVariables) }

/-- `ConfigOnlyDataContext.get_datasource`: the cached instance when the
name is in the registry; else, when the name is in the substituted config's
datasources, instantiate from a (deep) copy of that entry — copying is the
identity in this pure embedding — cache it and return it; else raise
`ValueError`. -/
def getDatasource (ctx : ConfigOnlyDataContext) (datasource_name : String) :
    Except GeError (Datasource × ConfigOnlyDataContext) :=
  match ctx.datasources.lookup datasource_name with
  | some datasource => Except.ok (datasource, ctx)
  | none =>
    match (projectConfigWithVariablesSubstituted ctx).datasources.lookup datasource_name with
    | some datasource_config =>
      let datasource := buildDatasourceFromConfig datasource_name datasource_config
      Except.ok (datasource,
        { ctx with datasources := setEntry ctx.datasources datasource_name datasource })
    | none =>
      Except.error (GeError.valueError
        ("Unable to load datasource " ++ datasource_name ++
          " -- no configuration found or invalid configuration."))

/-- `ConfigOnlyDataContext.add_store`: writes the supplied config into the
raw project config under `stores[store_name]`, instantiates the store from
the variable-substituted view of that entry, caches it, and returns it.  No
write to durable storage. -/
def addStore (ctx : ConfigOnlyDataContext) (store_name : String)
    (store_config : Config) : ConfigOnlyDataContext × StoreInstance :=
  let ctx' := { ctx with projectConfig :=
    { ctx.projectConfig with
      stores := setEntry ctx.projectConfig.stores store_name store_config } }
  let new_store : StoreInstance :=
    { config := ((projectConfigWithVariablesSubstituted ctx').stores.lookup store_name).getD [] }
  ({ ctx' with stores := setEntry ctx'.stores store_name new_store }, new_store)

/-- `ConfigOnlyDataContext.add_datasource`: writes the supplied config into
the raw project config under `datasources[name]` and, when `initialize` is
set, instantiates the datasource from the variable-substituted view of that
entry and caches it.  The optional `build_configuration` class hook is not
exercised here (the embedded config plays the role of its output).  No write
to durable storage. -/
def addDatasource (ctx : ConfigOnlyDataContext) (name : String)
    (config : Config) (initializeFlag : Bool) :
    ConfigOnlyDataContext × Option Datasource :=
  let ctx' := { ctx with projectConfig :=
    { ctx.projectConfig with
      datasources := setEntry ctx.projectConfig.datasources name config } }
  if initializeFlag then
    let datasource := buildDatasourceFromConfig name
      (((projectConfigWithVariablesSubstituted ctx').datasources.lookup name).getD [])
    ({ ctx' with datasources := setEntry ctx'.datasources name datasource }, some datasource)
  else
    (ctx', none)

end ConfigOnlyDataContext

namespace DataContext

/-- `DataContext._save_project_config`: writes the current raw project
config to the project's durable config file. -/
def saveProjectConfig (ctx : ConfigOnlyDataContext) : ConfigOnlyDataContext :=
  { ctx with savedProjectConfig := some ctx.projectConfig }

/-- `DataContext.add_store`: the base-class mutation followed by
`_save_project_config`. -/
def addStore (ctx : ConfigOnlyDataContext) (store_name : String)
    (store_config : Config) : ConfigOnlyDataContext × StoreInstance :=
  let result := ConfigOnlyDataContext.addStore ctx store_name store_config
  (saveProjectConfig result.1, result.2)

/-- `DataContext.add_datasource`: the base-class mutation followed by
`_save_project_config`. -/
def addDatasource (ctx : ConfigOnlyDataContext) (name : String)
    (config : Config) (initializeFlag : Bool) :
    ConfigOnlyDataContext × Option Datasource :=
  let result := ConfigOnlyDataContext.addDatasource ctx name config initializeFlag
  (saveProjectConfig result.1, result.2)

end DataContext

/-! ### Specification predicates and helper lemmas -/

/-- Whether a row satisfies the optional `updated_at` bounds: no bound means
no constraint, `datetime_begin` means `updated_at >= begin`, `datetime_end`
means `updated_at <= end`. -/
def rowInTimeRange (datetime_begin datetime_end : Option Nat)
    (row : SqlAlchemyComputedMetricModel) : Bool :=
  (match datetime_begin with
   | none => true
   | some b => decide (b ≤ row.updated_at)) &&
  (match datetime_end with
   | none => true
   | some e => decide (row.updated_at ≤ e))

theorem rowInTimeRange_none_none :
    rowInTimeRange none none = fun _ => true := rfl

theorem rowInTimeRange_some_none (b : Nat) :
    rowInTimeRange (some b) none = fun row => decide (b ≤ row.updated_at) := by
  funext row; simp [rowInTimeRange]

theorem rowInTimeRange_none_some (e : Nat) :
    rowInTimeRange none (some e) = fun row => decide (row.updated_at ≤ e) := by
  funext row; simp [rowInTimeRange]

theorem rowInTimeRange_some_some (b e : Nat) :
    rowInTimeRange (some b) (some e) =
      fun row => decide (b ≤ row.updated_at) && decide (row.updated_at ≤ e) := rfl

/-- The four-way datetime dispatch never takes its defensive else branch and
is exactly a filter by the `updated_at` range predicate. -/
theorem datetimeFilterBranchResults_eq
    (query_object : List SqlAlchemyComputedMetricModel)
    (datetime_begin datetime_end : Option Nat) :
    SqlAlchemyComputedMetricsStore.datetimeFilterBranchResults query_object
        datetime_begin datetime_end =
      some (query_object.filter (rowInTimeRange datetime_begin datetime_end)) := by
  cases datetime_begin <;> cases datetime_end <;>
    simp [SqlAlchemyComputedMetricsStore.datetimeFilterBranchResults,
      rowInTimeRange_none_none, rowInTimeRange_some_none, rowInTimeRange_none_some,
      rowInTimeRange_some_some, List.filter_filter, Bool.and_comm]

/-- Translation preserves the `updated_at` column. -/
theorem translate_updated_at (row : SqlAlchemyComputedMetricModel) :
    (SqlAlchemyComputedMetricsStore.translateSqlalchemyComputedMetricModelToBusinessObject
      row).updated_at = row.updated_at := rfl

/-- The datetime-filtered pipeline, unfolded: sort the time-filtered rows by
`updated_at` descending, then translate. -/
theorem getDatetimeFilteredQueryResults_eq
    (query_object : List SqlAlchemyComputedMetricModel)
    (datetime_begin datetime_end : Option Nat) :
    SqlAlchemyComputedMetricsStore.getDatetimeFilteredQueryResults query_object
        datetime_begin datetime_end =
      ((query_object.filter (rowInTimeRange datetime_begin datetime_end)).insertionSort
          SqlAlchemyComputedMetricsStore.updatedAtDescOrder).map
        SqlAlchemyComputedMetricsStore.translateSqlalchemyComputedMetricModelToBusinessObject := by
  simp [SqlAlchemyComputedMetricsStore.getDatetimeFilteredQueryResults,
    datetimeFilterBranchResults_eq]

/-- Membership in the datetime-filtered pipeline output. -/
theorem mem_getDatetimeFilteredQueryResults
    (query_object : List SqlAlchemyComputedMetricModel)
    (datetime_begin datetime_end : Option Nat) (bo : ComputedMetric) :
    bo ∈ SqlAlchemyComputedMetricsStore.getDatetimeFilteredQueryResults query_object
        datetime_begin datetime_end ↔
      ∃ row, row ∈ query_object ∧ rowInTimeRange datetime_begin datetime_end row = true ∧
        SqlAlchemyComputedMetricsStore.translateSqlalchemyComputedMetricModelToBusinessObject
          row = bo := by
  simp [getDatetimeFilteredQueryResults_eq, List.mem_map, List.mem_filter, and_assoc]

/-- `setEntry` makes the written key map to the written value. -/
theorem lookup_setEntry_self {α : Type} (l : List (String × α)) (k : String) (v : α) :
    (setEntry l k v).lookup k = some v := by
  induction l with
  | nil => simp [setEntry, List.lookup]
  | cons p rest ih =>
    obtain ⟨k', v'⟩ := p
    by_cases h : k' = k
    · subst h
      simp [setEntry, List.lookup]
    · have hb : (k' == k) = false := beq_eq_false_iff_ne.mpr h
      have hb' : (k == k') = false := beq_eq_false_iff_ne.mpr (Ne.symm h)
      simp [setEntry, List.lookup, hb, hb', ih]

/-- Association-list lookup commutes with mapping over the values. -/
theorem lookup_map_value {α β : Type} (l : List (String × α)) (f : α → β) (k : String) :
    (l.map fun p => (p.1, f p.2)).lookup k = (l.lookup k).map f := by
  induction l with
  | nil => simp [List.lookup]
  | cons p rest ih =>
    obtain ⟨k', v'⟩ := p
    by_cases h : k = k'
    · subst h
      simp [List.lookup]
    · have hb : (k == k') = false := beq_eq_false_iff_ne.mpr h
      simp [List.lookup, hb, ih]

/-- `lookup_map_value`, specialized to the substituted view of a config
section. -/
theorem lookup_substituted (l : List (String × Config))
    (vars : List (String × String)) (k : String) :
    (l.map fun p => (p.1, substituteAllConfigVariables p.2 vars)).lookup k =
      (l.lookup k).map fun c => substituteAllConfigVariables c vars :=
  lookup_map_value l (fun c => substituteAllConfigVariables c vars) k

/-- In a list sorted by `updated_at` descending, the head bounds every
element. -/
theorem head_max_of_pairwise_desc {l : List ComputedMetric} {bo : ComputedMetric}
    (hp : l.Pairwise fun a b => b.updated_at ≤ a.updated_at)
    (hh : l.head? = some bo) : ∀ x ∈ l, x.updated_at ≤ bo.updated_at := by
  cases l with
  | nil => cases hh
  | cons hd tl =>
    cases hh
    intro x hx
    rcases List.mem_cons.mp hx with hx | hx
    · exact hx ▸ Nat.le_refl _
    · exact (List.pairwise_cons.mp hp).1 x hx

/-- The rows of a table matching both the four-part identity key of
`SqlAlchemyComputedMetricsStore.get` and the optional `updated_at` bounds. -/
def getMatches (table : List SqlAlchemyComputedMetricModel)
    (batch_id metric_name metric_domain_kwargs_id metric_value_kwargs_id : Option String)
    (datetime_begin datetime_end : Option Nat) :
    List SqlAlchemyComputedMetricModel :=
  table.filter fun row =>
    SqlAlchemyComputedMetricsStore.keyConditions row batch_id metric_name
        metric_domain_kwargs_id metric_value_kwargs_id &&
      rowInTimeRange datetime_begin datetime_end row

/-- Filtering by the key conditions and then by the time range is filtering
by their conjunction. -/
theorem filter_key_then_time_eq_getMatches
    (table : List SqlAlchemyComputedMetricModel)
    (batch_id metric_name metric_domain_kwargs_id metric_value_kwargs_id : Option String)
    (datetime_begin datetime_end : Option Nat) :
    (table.filter fun row =>
        SqlAlchemyComputedMetricsStore.keyConditions row batch_id metric_name
          metric_domain_kwargs_id metric_value_kwargs_id).filter
        (rowInTimeRange datetime_begin datetime_end) =
      getMatches table batch_id metric_name metric_domain_kwargs_id
        metric_value_kwargs_id datetime_begin datetime_end := by
  simp [getMatches, List.filter_filter, Bool.and_comm]

/-- The pipeline output is sorted by `updated_at` descending. -/
theorem pairwise_desc_getDatetimeFilteredQueryResults
    (query_object : List SqlAlchemyComputedMetricModel)
    (datetime_begin datetime_end : Option Nat) :
    (SqlAlchemyComputedMetricsStore.getDatetimeFilteredQueryResults query_object
        datetime_begin datetime_end).Pairwise
      (fun a b => b.updated_at ≤ a.updated_at) := by
  rw [getDatetimeFilteredQueryResults_eq]
  exact List.Pairwise.map _ (fun a b h => h)
    (List.sorted_insertionSort SqlAlchemyComputedMetricsStore.updatedAtDescOrder _)

/-- The pipeline output is a permutation of the translations of the
time-matching rows. -/
theorem perm_getDatetimeFilteredQueryResults
    (query_object : List SqlAlchemyComputedMetricModel)
    (datetime_begin datetime_end : Option Nat) :
    (SqlAlchemyComputedMetricsStore.getDatetimeFilteredQueryResults query_object
        datetime_begin datetime_end).Perm
      ((query_object.filter (rowInTimeRange datetime_begin datetime_end)).map
        SqlAlchemyComputedMetricsStore.translateSqlalchemyComputedMetricModelToBusinessObject) := by
  rw [getDatetimeFilteredQueryResults_eq]
  exact (List.perm_insertionSort _ _).map _

/-- The pipeline output is empty exactly when no row passes the time
filter. -/
theorem getDatetimeFilteredQueryResults_eq_nil_iff
    (query_object : List SqlAlchemyComputedMetricModel)
    (datetime_begin datetime_end : Option Nat) :
    SqlAlchemyComputedMetricsStore.getDatetimeFilteredQueryResults query_object
        datetime_begin datetime_end = [] ↔
      query_object.filter (rowInTimeRange datetime_begin datetime_end) = [] := by
  rw [getDatetimeFilteredQueryResults_eq, List.map_eq_nil_iff]
  constructor
  · intro h
    have hl := (List.perm_insertionSort
      SqlAlchemyComputedMetricsStore.updatedAtDescOrder
      (query_object.filter (rowInTimeRange datetime_begin datetime_end))).symm.length_eq
    rw [h] at hl
    exact List.length_eq_zero.mp (by simpa using hl)
  · intro h
    rw [h]
    rfl

/-- `SqlAlchemyComputedMetricsStore.get`, unfolded: the managed session is
committed, closed and released, and the answer is the head of the pipeline
over the key-filtered table. -/
theorem get_unfold (session : DbSession)
    (batch_id metric_name metric_domain_kwargs_id metric_value_kwargs_id : Option String)
    (datetime_begin datetime_end : Option Nat) :
    SqlAlchemyComputedMetricsStore.get session batch_id metric_name
        metric_domain_kwargs_id metric_value_kwargs_id datetime_begin datetime_end =
      (((session.commit).close).remove,
        Except.ok (SqlAlchemyComputedMetricsStore.getDatetimeFilteredQueryResults
          (session.committed.filter fun row =>
            SqlAlchemyComputedMetricsStore.keyConditions row batch_id metric_name
              metric_domain_kwargs_id metric_value_kwargs_id)
          datetime_begin datetime_end).head?) := rfl

/-- `SqlAlchemyComputedMetricsStore.list`, unfolded. -/
theorem list_unfold (session : DbSession) (datetime_begin datetime_end : Option Nat) :
    SqlAlchemyComputedMetricsStore.list session datetime_begin datetime_end =
      (((session.commit).close).remove,
        Except.ok (SqlAlchemyComputedMetricsStore.getDatetimeFilteredQueryResults
          session.committed datetime_begin datetime_end)) := rfl

/-! ### Claims -/

/-- C4 counterexample: a business record carrying a non-`None` `id` is not
preserved by the business-record → backend-row → business-record round trip,
because the translation to the row representation never assigns the row's
`id` column (the assignment is commented out in the source), so the round
trip resets `id` to `None`. -/
theorem translation_round_trip_drops_id :
    SqlAlchemyComputedMetricsStore.translateSqlalchemyComputedMetricModelToBusinessObject
        (SqlAlchemyComputedMetricsStore.translateComputedMetricBusinessObjectToSqlalchemyModel
          { batch_id := some "b", metric_name := some "m",
            metric_domain_kwargs_id := some "d", metric_value_kwargs_id := some "v",
            datasource_name := none, data_asset_name := none, batch_name := none,
            created_at := 1, updated_at := 2, deleted_at := none, deleted := false,
            archived_at := none, archived := false, data_context_uuid := none,
            id := some 7, value := none, details := none }) ≠
      { batch_id := some "b", metric_name := some "m",
        metric_domain_kwargs_id := some "d", metric_value_kwargs_id := some "v",
        datasource_name := none, data_asset_name := none, batch_name := none,
        created_at := 1, updated_at := 2, deleted_at := none, deleted := false,
        archived_at := none, archived := false, data_context_uuid := none,
        id := some 7, value := none, details := none } := by
  decide

/-- C4 (amended): for every `ComputedMetric` business record, the
business-record → backend-row → business-record round trip preserves every
field except `id`, which is reset to `None` (the row's `id` column is never
taken from the business record). -/
theorem translation_round_trip_preserves_all_but_id (bo : ComputedMetric) :
    SqlAlchemyComputedMetricsStore.translateSqlalchemyComputedMetricModelToBusinessObject
        (SqlAlchemyComputedMetricsStore.translateComputedMetricBusinessObjectToSqlalchemyModel
          bo) =
      { bo with id := none } := rfl

/-- C5: the store constructor selects the connection mode with priority
engine > credentials > connection_string > url; a supplied engine is used
even when credentials are also supplied (with the warning logged exactly in
that case, and the result independent of any credential processing), and
with none of the four supplied it fails with `InvalidConfigError`. -/
theorem storeInit_connection_mode_priority
    (credentials : Option Credentials) (url connection_string : Option String)
    (engine : Nat) (c : Credentials) (cs u : String) (pem_load : PemLoadOutcome) :
    (SqlAlchemyComputedMetricsStore.storeInit credentials url connection_string
        (some engine) pem_load =
      Except.ok (DbEngine.supplied engine,
        if credentials.isSome then
          [SqlAlchemyComputedMetricsStore.credentialsIgnoredWarning]
        else [])) ∧
    (SqlAlchemyComputedMetricsStore.storeInit (some c) url connection_string none
        pem_load =
      (SqlAlchemyComputedMetricsStore.buildEngine c pem_load).map fun eng => (eng, [])) ∧
    (SqlAlchemyComputedMetricsStore.storeInit none url (some cs) none pem_load =
      Except.ok (DbEngine.fromConnectionString cs, [])) ∧
    (SqlAlchemyComputedMetricsStore.storeInit none (some u) none none pem_load =
      Except.ok (DbEngine.fromUrl u, [])) ∧
    (SqlAlchemyComputedMetricsStore.storeInit none none none none pem_load =
      Except.error (GeError.invalidConfigError
        "Credentials, url, connection_string, or an engine are required for a DatabaseStoreBackend.")) :=
  ⟨rfl, rfl, rfl, rfl, rfl⟩

/-- C8: during key-pair authentication, a `ValueError` from PEM decryption
whose message contains "incorrect password" (case-insensitively) is
translated into `DatasourceKeyPairAuthBadPassphraseError`; any other
`ValueError` and any exception of another class propagate unchanged. -/
theorem keyPairAuth_bad_passphrase_translation
    (drivername : String) (credentials : Credentials) (msg : String) (code : Nat) :
    (charsContain (lowerChars "incorrect password") (lowerChars msg) = true →
      SqlAlchemyComputedMetricsStore.getSqlalchemyKeyPairAuthUrl drivername credentials
          (PemLoadOutcome.valueError msg) =
        Except.error (GeError.datasourceKeyPairAuthBadPassphraseError
          "SqlAlchemyDatasource"
          "Decryption of key failed, was the passphrase incorrect?")) ∧
    (charsContain (lowerChars "incorrect password") (lowerChars msg) = false →
      SqlAlchemyComputedMetricsStore.getSqlalchemyKeyPairAuthUrl drivername credentials
          (PemLoadOutcome.valueError msg) =
        Except.error (GeError.valueError msg)) ∧
    (SqlAlchemyComputedMetricsStore.getSqlalchemyKeyPairAuthUrl drivername credentials
        (PemLoadOutcome.otherError code) =
      Except.error (GeError.otherError code)) := by
  refine ⟨fun h => ?_, fun h => ?_, rfl⟩ <;>
    simp [SqlAlchemyComputedMetricsStore.getSqlalchemyKeyPairAuthUrl, h]

/-- C8 witness: a wrong-passphrase `ValueError` is translated and an
unrelated `ValueError` is re-raised unchanged, at concrete inputs. -/
theorem keyPairAuth_bad_passphrase_translation_witness :
    (SqlAlchemyComputedMetricsStore.getSqlalchemyKeyPairAuthUrl "snowflake"
        { drivername := "snowflake", schema := none, connect_args := none,
          private_key_path := some "/keys/pk.pem",
          private_key_passphrase := some "pp", rest := [] }
        (PemLoadOutcome.valueError "Bad decrypt. Incorrect password?") =
      Except.error (GeError.datasourceKeyPairAuthBadPassphraseError
        "SqlAlchemyDatasource"
        "Decryption of key failed, was the passphrase incorrect?")) ∧
    (SqlAlchemyComputedMetricsStore.getSqlalchemyKeyPairAuthUrl "snowflake"
        { drivername := "snowflake", schema := none, connect_args := none,
          private_key_path := some "/keys/pk.pem",
          private_key_passphrase := some "pp", rest := [] }
        (PemLoadOutcome.valueError "Could not deserialize key data.") =
      Except.error (GeError.valueError "Could not deserialize key data.")) :=
  ⟨(keyPairAuth_bad_passphrase_translation "snowflake"
      { drivername := "snowflake", schema := none, connect_args := none,
        private_key_path := some "/keys/pk.pem",
        private_key_passphrase := some "pp", rest := [] }
      "Bad decrypt. Incorrect password?" 0).1 (by decide),
   (keyPairAuth_bad_passphrase_translation "snowflake"
      { drivername := "snowflake", schema := none, connect_args := none,
        private_key_path := some "/keys/pk.pem",
        private_key_passphrase := some "pp", rest := [] }
      "Could not deserialize key data." 0).2.1 (by decide)⟩

/-- C2: the datetime-filtered query results that both `get` and `list`
return contain, with neither bound, every row; with only `datetime_begin`,
exactly the rows with `updated_at >= datetime_begin`; with only
`datetime_end`, exactly the rows with `updated_at <= datetime_end`; and with
both, exactly the rows with
`datetime_begin <= updated_at <= datetime_end`. -/
theorem datetime_bounds_filter_exact
    (query_object : List SqlAlchemyComputedMetricModel)
    (bo : ComputedMetric) (b e : Nat) :
    (bo ∈ SqlAlchemyComputedMetricsStore.getDatetimeFilteredQueryResults
        query_object none none ↔
      ∃ row, row ∈ query_object ∧
        SqlAlchemyComputedMetricsStore.translateSqlalchemyComputedMetricModelToBusinessObject
          row = bo) ∧
    (bo ∈ SqlAlchemyComputedMetricsStore.getDatetimeFilteredQueryResults
        query_object (some b) none ↔
      ∃ row, row ∈ query_object ∧ b ≤ row.updated_at ∧
        SqlAlchemyComputedMetricsStore.translateSqlalchemyComputedMetricModelToBusinessObject
          row = bo) ∧
    (bo ∈ SqlAlchemyComputedMetricsStore.getDatetimeFilteredQueryResults
        query_object none (some e) ↔
      ∃ row, row ∈ query_object ∧ row.updated_at ≤ e ∧
        SqlAlchemyComputedMetricsStore.translateSqlalchemyComputedMetricModelToBusinessObject
          row = bo) ∧
    (bo ∈ SqlAlchemyComputedMetricsStore.getDatetimeFilteredQueryResults
        query_object (some b) (some e) ↔
      ∃ row, row ∈ query_object ∧ (b ≤ row.updated_at ∧ row.updated_at ≤ e) ∧
        SqlAlchemyComputedMetricsStore.translateSqlalchemyComputedMetricModelToBusinessObject
          row = bo) := by
  refine ⟨?_, ?_, ?_, ?_⟩ <;>
    simp [mem_getDatetimeFilteredQueryResults, rowInTimeRange, and_assoc]

/-- C1: `list` returns the matching records sorted by `updated_at`
descending (a permutation of the translations of the time-matching rows,
pairwise non-increasing in `updated_at`), and `get` returns `None` exactly
when no row matches the key conjunction and time bounds, and otherwise a
matching record whose `updated_at` attains the maximum over all matching
rows. -/
theorem list_sorted_desc_get_returns_latest
    (session : DbSession) (datetime_begin datetime_end : Option Nat)
    (batch_id metric_name metric_domain_kwargs_id metric_value_kwargs_id : Option String)
    (bo : ComputedMetric) (row : SqlAlchemyComputedMetricModel) :
    ((SqlAlchemyComputedMetricsStore.list session datetime_begin datetime_end).2 =
      Except.ok (SqlAlchemyComputedMetricsStore.getDatetimeFilteredQueryResults
        session.committed datetime_begin datetime_end)) ∧
    ((SqlAlchemyComputedMetricsStore.getDatetimeFilteredQueryResults
        session.committed datetime_begin datetime_end).Pairwise
      fun a b => b.updated_at ≤ a.updated_at) ∧
    ((SqlAlchemyComputedMetricsStore.getDatetimeFilteredQueryResults
        session.committed datetime_begin datetime_end).Perm
      ((session.committed.filter (rowInTimeRange datetime_begin datetime_end)).map
        SqlAlchemyComputedMetricsStore.translateSqlalchemyComputedMetricModelToBusinessObject)) ∧
    (((SqlAlchemyComputedMetricsStore.get session batch_id metric_name
          metric_domain_kwargs_id metric_value_kwargs_id datetime_begin
          datetime_end).2 = Except.ok none) ↔
      getMatches session.committed batch_id metric_name metric_domain_kwargs_id
        metric_value_kwargs_id datetime_begin datetime_end = []) ∧
    ((SqlAlchemyComputedMetricsStore.get session batch_id metric_name
          metric_domain_kwargs_id metric_value_kwargs_id datetime_begin
          datetime_end).2 = Except.ok (some bo) →
      bo ∈ (getMatches session.committed batch_id metric_name
          metric_domain_kwargs_id metric_value_kwargs_id datetime_begin
          datetime_end).map
        SqlAlchemyComputedMetricsStore.translateSqlalchemyComputedMetricModelToBusinessObject) ∧
    ((SqlAlchemyComputedMetricsStore.get session batch_id metric_name
          metric_domain_kwargs_id metric_value_kwargs_id datetime_begin
          datetime_end).2 = Except.ok (some bo) →
      row ∈ getMatches session.committed batch_id metric_name
        metric_domain_kwargs_id metric_value_kwargs_id datetime_begin datetime_end →
      row.updated_at ≤ bo.updated_at) := by
  have hkey := filter_key_then_time_eq_getMatches session.committed batch_id
    metric_name metric_domain_kwargs_id metric_value_kwargs_id datetime_begin
    datetime_end
  have hperm := perm_getDatetimeFilteredQueryResults
    (session.committed.filter fun r =>
      SqlAlchemyComputedMetricsStore.keyConditions r batch_id metric_name
        metric_domain_kwargs_id metric_value_kwargs_id)
    datetime_begin datetime_end
  rw [hkey] at hperm
  refine ⟨rfl, pairwise_desc_getDatetimeFilteredQueryResults _ _ _,
    perm_getDatetimeFilteredQueryResults _ _ _, ?_, ?_, ?_⟩
  · rw [get_unfold]
    simp only [Except.ok.injEq, List.head?_eq_none_iff]
    rw [getDatetimeFilteredQueryResults_eq_nil_iff, hkey]
  · intro hget
    rw [get_unfold] at hget
    simp only [Except.ok.injEq] at hget
    have hmem : bo ∈ SqlAlchemyComputedMetricsStore.getDatetimeFilteredQueryResults
        (session.committed.filter fun r =>
          SqlAlchemyComputedMetricsStore.keyConditions r batch_id metric_name
            metric_domain_kwargs_id metric_value_kwargs_id)
        datetime_begin datetime_end := List.mem_of_mem_head? (hget ▸ rfl)
    exact hperm.mem_iff.mp hmem
  · intro hget hrow
    rw [get_unfold] at hget
    simp only [Except.ok.injEq] at hget
    have hmax := head_max_of_pairwise_desc
      (pairwise_desc_getDatetimeFilteredQueryResults
        (session.committed.filter fun r =>
          SqlAlchemyComputedMetricsStore.keyConditions r batch_id metric_name
            metric_domain_kwargs_id metric_value_kwargs_id)
        datetime_begin datetime_end) hget
    have hmem : SqlAlchemyComputedMetricsStore.translateSqlalchemyComputedMetricModelToBusinessObject
        row ∈ SqlAlchemyComputedMetricsStore.getDatetimeFilteredQueryResults
          (session.committed.filter fun r =>
            SqlAlchemyComputedMetricsStore.keyConditions r batch_id metric_name
              metric_domain_kwargs_id metric_value_kwargs_id)
          datetime_begin datetime_end :=
      hperm.mem_iff.mpr (List.mem_map_of_mem _ hrow)
    exact hmax _ hmem

/-- C1 witness: on a concrete two-row table sharing a key, the row returned
by `get` bounds the other matching row's `updated_at`. -/
theorem list_sorted_desc_get_returns_latest_witness :
    ({ batch_id := some "b", metric_name := some "m",
       metric_domain_kwargs_id := some "d", metric_value_kwargs_id := some "v",
       datasource_name := none, data_asset_name := none, batch_name := none,
       created_at := 1, updated_at := 3, deleted_at := none, deleted := false,
       archived_at := none, archived := false, data_context_uuid := none,
       id := none, value := none, details := none } :
      SqlAlchemyComputedMetricModel).updated_at ≤
      (SqlAlchemyComputedMetricsStore.translateSqlalchemyComputedMetricModelToBusinessObject
        { batch_id := some "b", metric_name := some "m",
          metric_domain_kwargs_id := some "d", metric_value_kwargs_id := some "v",
          datasource_name := none, data_asset_name := none, batch_name := none,
          created_at := 1, updated_at := 5, deleted_at := none, deleted := false,
          archived_at := none, archived := false, data_context_uuid := none,
          id := none, value := none, details := none }).updated_at :=
  (list_sorted_desc_get_returns_latest
    { committed :=
        [{ batch_id := some "b", metric_name := some "m",
           metric_domain_kwargs_id := some "d", metric_value_kwargs_id := some "v",
           datasource_name := none, data_asset_name := none, batch_name := none,
           created_at := 1, updated_at := 3, deleted_at := none, deleted := false,
           archived_at := none, archived := false, data_context_uuid := none,
           id := none, value := none, details := none },
         { batch_id := some "b", metric_name := some "m",
           metric_domain_kwargs_id := some "d", metric_value_kwargs_id := some "v",
           datasource_name := none, data_asset_name := none, batch_name := none,
           created_at := 1, updated_at := 5, deleted_at := none, deleted := false,
           archived_at := none, archived := false, data_context_uuid := none,
           id := none, value := none, details := none }],
      pending := [], closed := false, scopeReleased := false }
    none none (some "b") (some "m") (some "d") (some "v")
    (SqlAlchemyComputedMetricsStore.translateSqlalchemyComputedMetricModelToBusinessObject
      { batch_id := some "b", metric_name := some "m",
        metric_domain_kwargs_id := some "d", metric_value_kwargs_id := some "v",
        datasource_name := none, data_asset_name := none, batch_name := none,
        created_at := 1, updated_at := 5, deleted_at := none, deleted := false,
        archived_at := none, archived := false, data_context_uuid := none,
        id := none, value := none, details := none })
    { batch_id := some "b", metric_name := some "m",
      metric_domain_kwargs_id := some "d", metric_value_kwargs_id := some "v",
      datasource_name := none, data_asset_name := none, batch_name := none,
      created_at := 1, updated_at := 3, deleted_at := none, deleted := false,
      archived_at := none, archived := false, data_context_uuid := none,
      id := none, value := none, details := none }).2.2.2.2.2
    (by rfl) (by decide)

/-- C3: every store operation runs under the managed scoped session: a body
that returns normally is committed, then the session is closed and the scope
released; a body that raises is rolled back, then closed and released, with
the original exception re-raised unchanged (never wrapped).  In particular a
successful `create` commits exactly the staged row, a failed `create` leaves
the durable table unchanged (no partial write), and `get`/`list` also
commit, close and release. -/
theorem store_operations_session_discipline
    {α : Type} (body : DbSession → DbSession × Except GeError α)
    (session : DbSession) (now : Nat)
    (batch_id metric_name metric_domain_kwargs_id metric_value_kwargs_id : String)
    (datasource_name data_asset_name batch_name : Option String)
    (created_at updated_at deleted_at : Option Nat) (deleted : Bool)
    (archived_at : Option Nat) (archived : Bool)
    (data_context_uuid : Option String) (value : Option String)
    (details : Option (List (String × String))) (e : GeError)
    (kbid kmn kmdk kmvk : Option String) (datetime_begin datetime_end : Option Nat) :
    (∀ s' a, body session = (s', Except.ok a) →
      SqlAlchemyComputedMetricsStore.getManagedScopedDbSession body session =
        (((s'.commit).close).remove, Except.ok a)) ∧
    (∀ s', body session = (s', Except.error e) →
      SqlAlchemyComputedMetricsStore.getManagedScopedDbSession body session =
        (((s'.rollback).close).remove, Except.error e)) ∧
    (SqlAlchemyComputedMetricsStore.create session now batch_id metric_name
        metric_domain_kwargs_id metric_value_kwargs_id datasource_name
        data_asset_name batch_name created_at updated_at deleted_at deleted
        archived_at archived data_context_uuid value details none =
      (((((session.add
            (SqlAlchemyComputedMetricsStore.translateComputedMetricBusinessObjectToSqlalchemyModel
              (SqlAlchemyComputedMetricsStore.createdBusinessObject now batch_id
                metric_name metric_domain_kwargs_id metric_value_kwargs_id
                datasource_name data_asset_name batch_name created_at updated_at
                deleted_at deleted archived_at archived data_context_uuid value
                details))).commit).close).remove), Except.ok ())) ∧
    (SqlAlchemyComputedMetricsStore.create session now batch_id metric_name
        metric_domain_kwargs_id metric_value_kwargs_id datasource_name
        data_asset_name batch_name created_at updated_at deleted_at deleted
        archived_at archived data_context_uuid value details (some e) =
      (((((session.add
            (SqlAlchemyComputedMetricsStore.translateComputedMetricBusinessObjectToSqlalchemyModel
              (SqlAlchemyComputedMetricsStore.createdBusinessObject now batch_id
                metric_name metric_domain_kwargs_id metric_value_kwargs_id
                datasource_name data_asset_name batch_name created_at updated_at
                deleted_at deleted archived_at archived data_context_uuid value
                details))).rollback).close).remove), Except.error e)) ∧
    ((SqlAlchemyComputedMetricsStore.create session now batch_id metric_name
        metric_domain_kwargs_id metric_value_kwargs_id datasource_name
        data_asset_name batch_name created_at updated_at deleted_at deleted
        archived_at archived data_context_uuid value details
        (some e)).1.committed = session.committed) ∧
    ((SqlAlchemyComputedMetricsStore.get session kbid kmn kmdk kmvk
        datetime_begin datetime_end).1 = ((session.commit).close).remove) ∧
    ((SqlAlchemyComputedMetricsStore.list session datetime_begin
        datetime_end).1 = ((session.commit).close).remove) := by
  refine ⟨?_, ?_, rfl, rfl, rfl, rfl, rfl⟩
  · intro s' a h
    simp [SqlAlchemyComputedMetricsStore.getManagedScopedDbSession, h]
  · intro s' h
    simp [SqlAlchemyComputedMetricsStore.getManagedScopedDbSession, h]

/-- C3 witness: the managed-session combinator applied to a concrete
succeeding body and a concrete raising body. -/
theorem store_operations_session_discipline_witness :
    (SqlAlchemyComputedMetricsStore.getManagedScopedDbSession
        (fun s => (s, Except.ok (0 : Nat)))
        { committed := [], pending := [], closed := false, scopeReleased := false } =
      ({ committed := [], pending := [], closed := true, scopeReleased := true },
        Except.ok 0)) ∧
    (SqlAlchemyComputedMetricsStore.getManagedScopedDbSession
        (fun s => (s, (Except.error (GeError.otherError 3) : Except GeError Nat)))
        { committed := [], pending := [], closed := false, scopeReleased := false } =
      ({ committed := [], pending := [], closed := true, scopeReleased := true },
        Except.error (GeError.otherError 3))) :=
  ⟨(store_operations_session_discipline (fun s => (s, Except.ok (0 : Nat)))
      { committed := [], pending := [], closed := false, scopeReleased := false }
      0 "b" "m" "d" "v" none none none none none none false none false none none
      none (GeError.otherError 3) none none none none none none).1
      { committed := [], pending := [], closed := false, scopeReleased := false }
      0 rfl,
   (store_operations_session_discipline
      (fun s => (s, (Except.error (GeError.otherError 3) : Except GeError Nat)))
      { committed := [], pending := [], closed := false, scopeReleased := false }
      0 "b" "m" "d" "v" none none none none none none false none false none none
      none (GeError.otherError 3) none none none none none none).2.1
      { committed := [], pending := [], closed := false, scopeReleased := false }
      rfl⟩

/-- C6: `get_datasource` returns the cached instance when the name is in the
registry; otherwise, when the name is in the substituted config's
datasources, it instantiates a datasource from that entry, caches it under
the name and returns it; and when the name is in neither, it raises a
`ValueError`-class error. -/
theorem get_datasource_cache_then_config_else_error
    (ctx : ConfigOnlyDataContext) (name : String) (ds : Datasource) (cfg : Config) :
    (ctx.datasources.lookup name = some ds →
      ConfigOnlyDataContext.getDatasource ctx name = Except.ok (ds, ctx)) ∧
    (ctx.datasources.lookup name = none →
      (ConfigOnlyDataContext.projectConfigWithVariablesSubstituted
          ctx).datasources.lookup name = some cfg →
      ConfigOnlyDataContext.getDatasource ctx name =
        Except.ok (buildDatasourceFromConfig name cfg,
          { ctx with datasources :=
              setEntry ctx.datasources name (buildDatasourceFromConfig name cfg) })) ∧
    (ctx.datasources.lookup name = none →
      (ConfigOnlyDataContext.projectConfigWithVariablesSubstituted
          ctx).datasources.lookup name = some cfg →
      (setEntry ctx.datasources name (buildDatasourceFromConfig name cfg)).lookup
          name = some (buildDatasourceFromConfig name cfg)) ∧
    (ctx.datasources.lookup name = none →
      (ConfigOnlyDataContext.projectConfigWithVariablesSubstituted
          ctx).datasources.lookup name = none →
      ConfigOnlyDataContext.getDatasource ctx name =
        Except.error (GeError.valueError
          ("Unable to load datasource " ++ name ++
            " -- no configuration found or invalid configuration."))) := by
  refine ⟨fun h1 => ?_, fun h1 h2 => ?_, fun h1 h2 => ?_, fun h1 h2 => ?_⟩
  · simp [ConfigOnlyDataContext.getDatasource, h1]
  · simp [ConfigOnlyDataContext.getDatasource, h1, h2]
  · exact lookup_setEntry_self ctx.datasources name (buildDatasourceFromConfig name cfg)
  · simp [ConfigOnlyDataContext.getDatasource, h1, h2]

/-- C6 witness: the three branches of `get_datasource` at a concrete
context (a cached datasource, a configured-but-uncached one whose config
carries a resolvable variable, and a missing name). -/
theorem get_datasource_cache_then_config_else_error_witness :
    (ConfigOnlyDataContext.getDatasource
        { projectConfig :=
            { datasources := [("db", [("host", ConfigLeaf.var "V")])], stores := [] },
          configVariables := [("V", "hostname")],
          datasources := [("cached", { name := "cached", config := [] })],
          stores := [], savedProjectConfig := none } "cached" =
      Except.ok ({ name := "cached", config := [] },
        { projectConfig :=
            { datasources := [("db", [("host", ConfigLeaf.var "V")])], stores := [] },
          configVariables := [("V", "hostname")],
          datasources := [("cached", { name := "cached", config := [] })],
          stores := [], savedProjectConfig := none })) ∧
    (ConfigOnlyDataContext.getDatasource
        { projectConfig :=
            { datasources := [("db", [("host", ConfigLeaf.var "V")])], stores := [] },
          configVariables := [("V", "hostname")],
          datasources := [("cached", { name := "cached", config := [] })],
          stores := [], savedProjectConfig := none } "db" =
      Except.ok (buildDatasourceFromConfig "db" [("host", ConfigLeaf.lit "hostname")],
        { projectConfig :=
            { datasources := [("db", [("host", ConfigLeaf.var "V")])], stores := [] },
          configVariables := [("V", "hostname")],
          datasources :=
            [("cached", { name := "cached", config := [] }),
             ("db", buildDatasourceFromConfig "db" [("host", ConfigLeaf.lit "hostname")])],
          stores := [], savedProjectConfig := none })) ∧
    (ConfigOnlyDataContext.getDatasource
        { projectConfig :=
            { datasources := [("db", [("host", ConfigLeaf.var "V")])], stores := [] },
          configVariables := [("V", "hostname")],
          datasources := [("cached", { name := "cached", config := [] })],
          stores := [], savedProjectConfig := none } "missing" =
      Except.error (GeError.valueError
        ("Unable to load datasource " ++ "missing" ++
          " -- no configuration found or invalid configuration."))) :=
  ⟨(get_datasource_cache_then_config_else_error _ "cached"
      { name := "cached", config := [] } []).1 rfl,
   (get_datasource_cache_then_config_else_error _ "db"
      { name := "cached", config := [] }
      [("host", ConfigLeaf.lit "hostname")]).2.1 rfl rfl,
   (get_datasource_cache_then_config_else_error _ "missing"
      { name := "cached", config := [] } []).2.2.2 rfl rfl⟩

/-- C7: `add_store` and `add_datasource` write the supplied, unsubstituted
config into the raw project config (preserving variable tokens), construct
the component instance from the variable-substituted view of that entry,
and the in-memory base class leaves durable storage untouched, whereas the
file-backed subclass saves the raw project config after the mutation. -/
theorem config_mutation_raw_write_and_persistence
    (ctx : ConfigOnlyDataContext) (name : String) (cfg : Config) (flag : Bool) :
    ((ConfigOnlyDataContext.addStore ctx name cfg).1.projectConfig.stores.lookup
        name = some cfg) ∧
    ((ConfigOnlyDataContext.addStore ctx name cfg).2 =
      { config := substituteAllConfigVariables cfg ctx.configVariables }) ∧
    ((ConfigOnlyDataContext.addStore ctx name cfg).1.savedProjectConfig =
      ctx.savedProjectConfig) ∧
    ((ConfigOnlyDataContext.addDatasource ctx name cfg
        flag).1.projectConfig.datasources.lookup name = some cfg) ∧
    ((ConfigOnlyDataContext.addDatasource ctx name cfg flag).1.savedProjectConfig =
      ctx.savedProjectConfig) ∧
    (flag = true →
      (ConfigOnlyDataContext.addDatasource ctx name cfg flag).2 =
        some (buildDatasourceFromConfig name
          (substituteAllConfigVariables cfg ctx.configVariables))) ∧
    ((DataContext.addStore ctx name cfg).1.savedProjectConfig =
      some (ConfigOnlyDataContext.addStore ctx name cfg).1.projectConfig) ∧
    ((DataContext.addStore ctx name cfg).1.projectConfig =
      (ConfigOnlyDataContext.addStore ctx name cfg).1.projectConfig) ∧
    ((DataContext.addDatasource ctx name cfg flag).1.savedProjectConfig =
      some (ConfigOnlyDataContext.addDatasource ctx name cfg
        flag).1.projectConfig) := by
  refine ⟨?_, ?_, ?_, ?_, ?_, fun hflag => ?_, ?_, ?_, ?_⟩
  · simp [ConfigOnlyDataContext.addStore, lookup_setEntry_self]
  · simp [ConfigOnlyDataContext.addStore,
      ConfigOnlyDataContext.projectConfigWithVariablesSubstituted,
      lookup_substituted, lookup_setEntry_self]
  · rfl
  · cases flag <;>
      simp [ConfigOnlyDataContext.addDatasource, lookup_setEntry_self]
  · cases flag <;> simp [ConfigOnlyDataContext.addDatasource]
  · subst hflag
    simp [ConfigOnlyDataContext.addDatasource,
      ConfigOnlyDataContext.projectConfigWithVariablesSubstituted,
      lookup_substituted, lookup_setEntry_self]
  · rfl
  · rfl
  · cases flag <;> rfl

/-- C7 witness: the file-backed `add_datasource` at a concrete context with
`initialize=True` instantiates from the substituted entry. -/
theorem config_mutation_raw_write_and_persistence_witness :
    (ConfigOnlyDataContext.addDatasource
        { projectConfig := { datasources := [], stores := [] },
          configVariables := [("V", "resolved")],
          datasources := [], stores := [], savedProjectConfig := none }
        "db" [("host", ConfigLeaf.var "V")] true).2 =
      some (buildDatasourceFromConfig "db"
        (substituteAllConfigVariables [("host", ConfigLeaf.var "V")]
          [("V", "resolved")])) :=
  (config_mutation_raw_write_and_persistence
    { projectConfig := { datasources := [], stores := [] },
      configVariables := [("V", "resolved")],
      datasources := [], stores := [], savedProjectConfig := none }
    "db" [("host", ConfigLeaf.var "V")] true).2.2.2.2.2.1 rfl

/-- C9: the defensive else branch of the datetime dispatch is unreachable:
the four cases over presence of `datetime_begin`/`datetime_end` are
exhaustive, so the dispatch always produces one of the four intended
results. -/
theorem datetime_dispatch_defensive_else_unreachable
    (query_object : List SqlAlchemyComputedMetricModel)
    (datetime_begin datetime_end : Option Nat) :
    (SqlAlchemyComputedMetricsStore.datetimeFilterBranchResults query_object
        datetime_begin datetime_end).isSome = true := by
  cases datetime_begin <;> cases datetime_end <;>
    simp [SqlAlchemyComputedMetricsStore.datetimeFilterBranchResults]

/-- C10: `get` always constrains all four identity columns: a row enters the
candidate set exactly when each of its four identity columns equals the
corresponding (possibly absent) key part, so an omitted key part is an
equality comparison against `None` (`IS NULL`) and never a wildcard. -/
theorem get_filter_constrains_all_four_columns
    (session : DbSession)
    (batch_id metric_name metric_domain_kwargs_id metric_value_kwargs_id : Option String)
    (datetime_begin datetime_end : Option Nat)
    (row : SqlAlchemyComputedMetricModel) :
    ((SqlAlchemyComputedMetricsStore.get session batch_id metric_name
        metric_domain_kwargs_id metric_value_kwargs_id datetime_begin
        datetime_end).2 =
      Except.ok (SqlAlchemyComputedMetricsStore.getDatetimeFilteredQueryResults
        (session.committed.filter fun r =>
          SqlAlchemyComputedMetricsStore.keyConditions r batch_id metric_name
            metric_domain_kwargs_id metric_value_kwargs_id)
        datetime_begin datetime_end).head?) ∧
    (row ∈ (session.committed.filter fun r =>
        SqlAlchemyComputedMetricsStore.keyConditions r batch_id metric_name
          metric_domain_kwargs_id metric_value_kwargs_id) ↔
      row ∈ session.committed ∧ row.batch_id = batch_id ∧
        row.metric_name = metric_name ∧
        row.metric_domain_kwargs_id = metric_domain_kwargs_id ∧
        row.metric_value_kwargs_id = metric_value_kwargs_id) ∧
    (batch_id = none →
      SqlAlchemyComputedMetricsStore.keyConditions row batch_id metric_name
        metric_domain_kwargs_id metric_value_kwargs_id = true →
      row.batch_id = none) := by
  refine ⟨rfl, ?_, fun hnone hkey => ?_⟩
  · simp [List.mem_filter, SqlAlchemyComputedMetricsStore.keyConditions, and_assoc]
  · subst hnone
    simp [SqlAlchemyComputedMetricsStore.keyConditions] at hkey
    exact hkey.1.1.1

/-- C10 witness: a row whose columns are all `NULL` passes the filter for an
all-omitted key, and its `batch_id` is then `None`. -/
theorem get_filter_constrains_all_four_columns_witness :
    SqlAlchemyComputedMetricModel.fresh.batch_id = none :=
  (get_filter_constrains_all_four_columns
    { committed := [SqlAlchemyComputedMetricModel.fresh], pending := [],
      closed := false, scopeReleased := false }
    none none none none none none SqlAlchemyComputedMetricModel.fresh).2.2
    rfl (by decide)

end GE
